import Mathlib

/-!
Verification development for the Postgres-Assistant backend.

The development shallowly embeds the logic of the repository that the
claims concern:

* `backend/mcp-servers/sql_mcp_server.py` — the SQL tool family
  (`sql_db_query`, `sql_db_schema`, `sql_db_list_tables`,
  `sql_db_query_checker`, `sql_db_info`, `health_check`).  The database
  backend (`SQLDatabase`) is modelled as a record of oracles that either
  return a value or raise (`Except String`), mirroring the fact that every
  Python call into the backend may raise an exception which the tool's
  try/except block converts to an error string.
* `backend/app/api/v1/endpoints/chat.py` — the `event_stream` generator
  that translates agent events into server-sent frames.  The upstream
  `astream_events` iterator is modelled as the list of events it yields
  before either finishing normally or raising (an optional exception
  message); the SSE/JSON wire framing is abstracted into a structured
  frame type carrying the same discriminator and fields.
* `backend/app/agents/postgres_assistant_agent.py` — the system-prompt
  assembly (including the unconditional reassignment of the schema string
  on line 99) and the `create_react_agent` call, which passes no
  checkpointer.
* the LangGraph invocation contract (external framework): a compiled agent
  with an attached checkpointer prepends the stored thread history to the
  input messages and persists the result of a completed run; without a
  checkpointer nothing is loaded or stored.

Python string operations used by the tools (`strip`, `upper`, substring
containment, `startswith`, `endswith`) are embedded at the character-list
level so their behaviour is fully transparent to proofs.
-/

/-! ### Python string primitives -/

/-- Embedding of CPython `str.strip()` on the character list: drop leading
whitespace, then drop trailing whitespace (via reversal). -/
def stripChars (l : List Char) : List Char :=
  ((l.dropWhile Char.isWhitespace).reverse.dropWhile Char.isWhitespace).reverse

/-- Embedding of Python `s.strip()`. -/
def pyStrip (s : String) : String := ⟨stripChars s.data⟩

/-- Embedding of Python `s.upper()` (basic-latin case mapping, which is all
the checker relies on). -/
def pyUpper (s : String) : String := ⟨s.data.map Char.toUpper⟩

/-- Does `pat` occur as a contiguous sublist of the argument?  This is the
semantics of the Python substring test `pat in s`. -/
def hasSubList (pat : List Char) : List Char → Bool
  | [] => pat.isEmpty
  | c :: rest => pat.isPrefixOf (c :: rest) || hasSubList pat rest

/-- Embedding of the Python membership test `pat in s` on strings. -/
def pyContains (s pat : String) : Bool := hasSubList pat.data s.data

/-- Embedding of Python `s.startswith(p)`. -/
def pyStartsWith (s p : String) : Bool := p.data.isPrefixOf s.data

/-- Embedding of Python `s.endswith(p)`. -/
def pyEndsWith (s p : String) : Bool := p.data.isSuffixOf s.data

/-! ### The database backend model

`SQLDatabase` (langchain) is the tool backend.  Each operation the MCP
server invokes on it may raise; an operation is therefore modelled as an
`Except String` value, the `error` case carrying `str(e)` of the raised
exception. -/

/-- Result of `SQLDatabase.run`: Python code distinguishes a `list` result
(one rendered entry per row) from any other value, which it renders with
`str`. -/
inductive RunResult where
  | rows (rs : List String)
  | text (s : String)
deriving DecidableEq

/-- The backend handle: the operations of `SQLDatabase` used by the MCP
server.  `dialect` cannot raise (attribute access), the others can. -/
structure Database where
  run : String → Except String RunResult
  get_table_info : Option (List String) → Except String String
  get_usable_table_names : Except String (List String)
  dialect : String

/-- A backend on which every operation raises with message `e` — used to
state that tool failures are captured, never propagated. -/
def failDB (e : String) : Database where
  run := fun _ => Except.error e
  get_table_info := fun _ => Except.error e
  get_usable_table_names := Except.error e
  dialect := "postgresql"

/-- A backend on which every operation succeeds with a fixed answer — used
to instantiate witnesses. -/
def okDB : Database where
  run := fun _ => Except.ok (RunResult.text "EXPLAIN output")
  get_table_info := fun _ => Except.ok "schema"
  get_usable_table_names := Except.ok ["users", "orders"]
  dialect := "postgresql"

/-! ### The SQL tools (sql_mcp_server.py)

Each tool takes the module-level `_database` handle (`Option Database`,
`none` when `initialize_database` has not run).  The whole Python body sits
in a `try`/`except` whose handler returns an error string, so the
embeddings are total functions into `String`: a raised backend exception
is the `Except.error` case, consumed inside the definition. -/

/-- Embedding of Python `str(list)` applied to the (pre-rendered) rows. -/
def pyListStr (rs : List String) : String :=
  "[" ++ String.intercalate ", " rs ++ "]"

/-- Embedding of `sql_db_query` (sql_mcp_server.py lines 35-62). -/
def sql_db_query (db : Option Database) (query : String) : String :=
  match db with
  | none => "Error: Database not initialized"
  | some d =>
    match d.run query with
    | Except.error e => "Error executing SQL query: " ++ e
    | Except.ok (RunResult.text s) => s
    | Except.ok (RunResult.rows result) =>
      if result.length = 0 then
        "Query executed successfully. No rows returned."
      else if result.length > 100 then
        "Query returned " ++ toString result.length ++ " rows. First 100 rows:\n"
          ++ pyListStr (result.take 100)
      else
        "Query returned " ++ toString result.length ++ " rows:\n" ++ pyListStr result

/-- Embedding of `sql_db_schema` (lines 64-87). -/
def sql_db_schema (db : Option Database) (table_names : Option String) : String :=
  match db with
  | none => "Error: Database not initialized"
  | some d =>
    let res :=
      match table_names with
      | some t =>
        if t ≠ "" && pyStrip t ≠ "" then
          d.get_table_info (some ((t.splitOn ",").map pyStrip))
        else
          d.get_table_info none
      | none => d.get_table_info none
    match res with
    | Except.ok r => r
    | Except.error e => "Error getting schema: " ++ e

/-- Embedding of `sql_db_list_tables` (lines 89-109). -/
def sql_db_list_tables (db : Option Database) : String :=
  match db with
  | none => "Error: Database not initialized"
  | some d =>
    match d.get_usable_table_names with
    | Except.ok tables =>
      "Available tables (" ++ toString tables.length ++ "): "
        ++ String.intercalate ", " tables
    | Except.error e => "Error listing tables: " ++ e

/-- The destructive-keyword list of `sql_db_query_checker` (line 124), in
source order. -/
def dangerous_keywords : List String :=
  ["DROP", "DELETE", "TRUNCATE", "ALTER TABLE", "CREATE DATABASE", "DROP DATABASE"]

/-- Embedding of `sql_db_query_checker` (lines 111-151).  The first
component is the returned text; the second records every query string the
tool submits to `_database.run`, so "no dry run / no execution" is the
statement that this log is empty. -/
def sql_db_query_checker (db : Option Database) (query : String) : String × List String :=
  match db with
  | none => ("Error: Database not initialized", [])
  | some d =>
    let query_upper := pyUpper (pyStrip query)
    match dangerous_keywords.find? (fun keyword => pyContains query_upper keyword) with
    | some keyword =>
      ("WARNING: Query contains potentially dangerous keyword \x27" ++ keyword
        ++ "\x27. Please review carefully.", [])
    | none =>
      if pyStrip query = "" then
        ("ERROR: Empty query provided", [])
      else
        let query1 :=
          if !(pyEndsWith (pyStrip query) ";") && pyStartsWith query_upper "SELECT" then
            query ++ ";"
          else query
        if pyStartsWith query_upper "SELECT" then
          let explain_query := "EXPLAIN " ++ query1
          match d.run explain_query with
          | Except.ok _ => ("Query syntax appears valid and safe for execution", [explain_query])
          | Except.error syntax_error =>
            ("Query syntax error: " ++ syntax_error, [explain_query])
        else
          ("Query passed basic safety checks. Please review before execution.", [])

/-- Rendering of a JSON string literal (no escaping needed for the values
the server produces). -/
def jsonStr (s : String) : String := "\"" ++ s ++ "\""

/-- Rendering of a JSON list of strings as `json.dumps(..., indent=2)`
lays it out one level deep. -/
def jsonStrList (l : List String) : String :=
  match l with
  | [] => "[]"
  | _ => "[\n    " ++ String.intercalate ",\n    " (l.map jsonStr) ++ "\n  ]"

/-- Embedding of `sql_db_info` (lines 153-180); the `json.dumps(info,
indent=2)` output is rendered concretely. -/
def sql_db_info (db : Option Database) : String :=
  match db with
  | none => "Error: Database not initialized"
  | some d =>
    match d.get_usable_table_names with
    | Except.error e => "Error getting database info: " ++ e
    | Except.ok tables =>
      "\x7b\n  \"dialect\": " ++ jsonStr d.dialect
        ++ ",\n  \"total_tables\": " ++ toString tables.length
        ++ ",\n  \"table_names\": "
        ++ jsonStrList (if tables.length > 10 then tables.take 10 else tables)
        ++ ",\n  \"connection_status\": \"Connected\"\n\x7d"

/-- Embedding of `health_check` (lines 182-206).  `toolkit_initialized`
mirrors `_toolkit is not None`. -/
def health_check (db : Option Database) (toolkit_initialized : Bool) : String :=
  let conn :=
    match db with
    | none => "not_initialized"
    | some d =>
      match d.run "SELECT 1" with
      | Except.ok _ => "active"
      | Except.error db_error => "error: " ++ db_error
  "\x7b\n  \"server_status\": \"running\",\n  \"database_initialized\": "
    ++ (if db.isSome then "true" else "false")
    ++ ",\n  \"toolkit_initialized\": " ++ (if toolkit_initialized then "true" else "false")
    ++ ",\n  \"database_connection\": " ++ jsonStr conn ++ "\n\x7d"

/-! ### The streaming endpoint (chat.py)

`event_stream` iterates `agent.astream_events(...)` and yields one SSE
frame per relevant upstream event, then a final `stream_end`; if the
iteration raises, the frames already yielded stand and a single `error`
frame is yielded instead (the `except` wraps the whole loop including the
`stream_end` yield).  A run of the upstream iterator is therefore modelled
as the list of events it delivers together with an optional exception
message raised after them (`none` = normal completion).  The SSE/JSON
framing is abstracted into a structured frame carrying the same `type`
discriminator and fields. -/

/-- An upstream event from `astream_events` as inspected by the endpoint:
its `event` kind and the fields the endpoint reads.  `other` stands for
every kind the endpoint ignores. -/
inductive AgentEvent where
  | chat_model_stream (content : String)
  | tool_start (name : String) (input : String)
  | tool_end (name : String) (output : String)
  | other (kind : String)
deriving DecidableEq

/-- A server-sent frame, by its `type` discriminator and payload fields. -/
inductive SSEFrame where
  | token (content : String)
  | toolStart (tool : String) (input : String)
  | toolEnd (tool : String) (output : String)
  | streamEnd
  | error (content : String)
deriving DecidableEq

/-- The per-event body of the loop in `event_stream` (chat.py lines 59-69):
zero or one frames per upstream event; a chunk with empty content yields
nothing (`if content:`). -/
def renderEvent : AgentEvent → Option SSEFrame
  | AgentEvent.chat_model_stream content =>
    if content = "" then none else some (SSEFrame.token content)
  | AgentEvent.tool_start name input => some (SSEFrame.toolStart name input)
  | AgentEvent.tool_end name output => some (SSEFrame.toolEnd name output)
  | AgentEvent.other _ => none

/-- Embedding of the `event_stream` generator (chat.py lines 52-75): the
frames emitted for an upstream run that delivers `events` and then either
completes (`exc = none`) or raises (`exc = some e`). -/
def event_stream (events : List AgentEvent) (exc : Option String) : List SSEFrame :=
  match exc with
  | none => events.filterMap renderEvent ++ [SSEFrame.streamEnd]
  | some e =>
    events.filterMap renderEvent
      ++ [SSEFrame.error ("An error occurred during agent execution: " ++ e)]

/-- Is a frame one of the two terminal frame types? -/
def isTerminal : SSEFrame → Bool
  | SSEFrame.streamEnd => true
  | SSEFrame.error _ => true
  | _ => false

/-- The `content` fields of the `token` frames of a frame sequence, in
emission order. -/
def tokenContents : List SSEFrame → List String
  | [] => []
  | SSEFrame.token c :: rest => c :: tokenContents rest
  | _ :: rest => tokenContents rest

/-- The `content` fields of the model-stream chunks of an upstream event
sequence, in delivery order; their concatenation is the turn text. -/
def chunkContents : List AgentEvent → List String
  | [] => []
  | AgentEvent.chat_model_stream c :: rest => c :: chunkContents rest
  | _ :: rest => chunkContents rest

/-- Concatenation of a list of strings in order. -/
def concatStrings : List String → String
  | [] => ""
  | s :: rest => s ++ concatStrings rest

/-! ### Agent construction and session memory (postgres_assistant_agent.py,
graph.py, chat.py)

The serving path is: `chat_stream` → `get_agent_executor` →
`create_agent` → `create_react_agent(model=llm, tools=tools,
prompt=prompt)`.  The LangGraph invocation contract (the framework is an
external collaborator; the spec describes it in the Session Memory Store
and Agent Loop sections) is: a compiled agent invoked with
`thread_id = tid` first loads the stored history of `tid` from its
checkpointer — or starts from nothing when compiled without one — appends
the input messages, runs, and on completion persists the resulting
history back through the checkpointer, again only when one is attached.
`create_react_agent` is called without a checkpointer; `build_graph`
(graph.py) compiles its wrapping graph with a `MemorySaver` checkpointer
but is never invoked by the endpoint. -/

/-- A conversation message as stored per thread. -/
inductive ChatMessage where
  | human (content : String)
  | ai (content : String)
  | tool (content : String)
deriving DecidableEq

/-- Checkpointer storage: thread id to stored message history. -/
abbrev ThreadStore := List (String × List ChatMessage)

/-- Stored history of a thread (empty for an unseen id). -/
def lookupThread (store : ThreadStore) (tid : String) : List ChatMessage :=
  match store.find? (fun p => p.1 == tid) with
  | some p => p.2
  | none => []

/-- Persist a thread history. -/
def saveThread (store : ThreadStore) (tid : String) (msgs : List ChatMessage) : ThreadStore :=
  (tid, msgs) :: store

/-- A compiled LangGraph agent, abstracted to the one property the memory
claims depend on: whether a checkpointer was attached at compile time. -/
structure CompiledAgent where
  hasCheckpointer : Bool
deriving DecidableEq

/-- Embedding of `langgraph.prebuilt.create_react_agent` restricted to its
checkpointer parameter: the compiled agent persists state iff a
checkpointer is passed. -/
def create_react_agent (checkpointer : Option Unit) : CompiledAgent :=
  { hasCheckpointer := checkpointer.isSome }

/-- Embedding of `create_agent` (postgres_assistant_agent.py line 119):
`create_react_agent(model=llm, tools=tools, prompt=prompt)` — no
checkpointer argument is passed. -/
def create_agent_executor : CompiledAgent := create_react_agent none

/-- Embedding of `build_graph` (graph.py lines 8-19): the wrapping graph is
compiled with a `MemorySaver` checkpointer.  The endpoint never calls it. -/
def build_graph_executor : CompiledAgent := create_react_agent (some ())

/-- The agent the endpoint serves every request with (chat.py line 44,
via `get_agent_executor`). -/
def chat_stream_agent : CompiledAgent := create_agent_executor

/-- The input the endpoint passes to the agent (chat.py line 50):
`[HumanMessage(content=user_query)]`. -/
def chat_request_input (user_query : String) : List ChatMessage :=
  [ChatMessage.human user_query]

/-- One agent run under the LangGraph invocation contract described above.
`generated` are the messages the run produces after the input (assistant
text, tool calls, tool results) and `completes` is whether it reaches the
end rather than aborting.  Returns the message history presented to the
model for this run and the checkpointer store afterwards. -/
def runAgent (agent : CompiledAgent) (store : ThreadStore) (tid : String)
    (input generated : List ChatMessage) (completes : Bool) :
    List ChatMessage × ThreadStore :=
  let history := (if agent.hasCheckpointer then lookupThread store tid else []) ++ input
  (history,
    if agent.hasCheckpointer && completes then
      saveThread store tid (history ++ generated)
    else store)

/-! ### System prompt assembly (postgres_assistant_agent.py lines 85-117)

The function below is the prompt-building tail of `create_agent` as a
function of the parsed schema descriptions of the fetched resources.  It
reproduces the source faithfully, including line 99, which reassigns
`database_schema_string` to the empty string after the assembled value
(and its fallback) have been computed. -/

/-- Lines 85-93: join the parsed table descriptions, with a fallback
sentence when nothing was loaded. -/
def assemble_schema_string (schema_descriptions : List String) : String :=
  let database_schema_string := String.intercalate "\n\n" schema_descriptions
  if database_schema_string = "" then
    "No schema information is available to the agent."
  else database_schema_string

/-- Lines 85-110: the `system_prompt` string handed to
`ChatPromptTemplate.from_messages`. -/
def create_agent_system_prompt (schema_descriptions : List String) : String :=
  let _database_schema_string0 := assemble_schema_string schema_descriptions
  -- line 99: `database_schema_string = ""` discards the assembled value
  let database_schema_string := ""
  "You are a helpful and expert PostgreSQL assistant. "
    ++ "Your role is to help users analyze and optimize their database by writing and executing `query` tools. "
    ++ "You MUST use the provided database schema below to write accurate SQL queries. "
    ++ "When you use a tool, briefly inform the user what you are doing. "
    ++ "After you get the result from a tool, summarize it in a clear, easy-to-understand way. "
    ++ "Be polite and concise."
    ++ "\n\n--- DATABASE SCHEMA ---\n"
    ++ database_schema_string
    ++ "\n--- END SCHEMA ---"

/-! ### Auxiliary definitions used by the statements -/

/-- Does a character list start and end with a non-whitespace character
(in particular, is it nonempty)?  Every destructive keyword satisfies
this; it is what makes keyword containment insensitive to `strip()`. -/
def noWsEdges (l : List Char) : Bool :=
  (match l.head? with
   | some c => !c.isWhitespace
   | none => false)
  && (match l.getLast? with
      | some c => !c.isWhitespace
      | none => false)

/-- A backend whose every query returns 250 rows — the witness backend for
the truncation claim. -/
def db250 : Database where
  run := fun _ => Except.ok (RunResult.rows (List.replicate 250 "r"))
  get_table_info := fun _ => Except.ok "schema"
  get_usable_table_names := Except.ok []
  dialect := "postgresql"

/-! # Theorems -/

/-! ### C10 — tools on an uninitialized database handle -/

/-- C10: with the database handle uninitialized (`_database is None`),
each of the five database tools returns exactly the text
"Error: Database not initialized" as a normal result.  No backend exists
to contact in this state — in particular the checker's backend-call log
is empty — and no exception escapes (the embeddings are total functions
into `String`). -/
theorem C10_uninitialized_tools (q : String) (tn : Option String) :
    sql_db_query none q = "Error: Database not initialized"
    ∧ sql_db_schema none tn = "Error: Database not initialized"
    ∧ sql_db_list_tables none = "Error: Database not initialized"
    ∧ sql_db_query_checker none q = ("Error: Database not initialized", [])
    ∧ sql_db_info none = "Error: Database not initialized" :=
  ⟨rfl, rfl, rfl, rfl, rfl⟩

/-! ### C9 — the schema section of the system prompt is always empty -/

/-- C9: the system prompt built by `create_agent` is one constant string
whose DATABASE SCHEMA section is the empty string, independently of the
schema descriptions that were fetched and parsed: line 99 reassigns
`database_schema_string` to `""` after the assembled value was computed,
so the fetched schema never reaches the prompt. -/
theorem C9_schema_section_always_empty (schema_descriptions : List String) :
    create_agent_system_prompt schema_descriptions
      = "You are a helpful and expert PostgreSQL assistant. "
        ++ "Your role is to help users analyze and optimize their database by writing and executing `query` tools. "
        ++ "You MUST use the provided database schema below to write accurate SQL queries. "
        ++ "When you use a tool, briefly inform the user what you are doing. "
        ++ "After you get the result from a tool, summarize it in a clear, easy-to-understand way. "
        ++ "Be polite and concise."
        ++ "\n\n--- DATABASE SCHEMA ---\n"
        ++ ""
        ++ "\n--- END SCHEMA ---"
    ∧ create_agent_system_prompt schema_descriptions = create_agent_system_prompt [] :=
  ⟨rfl, rfl⟩

/-! ### C5 — run_query row counting and truncation -/

/-- C5: when the backend returns a row list of length n, `sql_db_query`
reports the true count n and shows all rows when 0 < n ≤ 100, exactly the
first 100 rows when n > 100, and a no-rows message when n = 0. -/
theorem C5_run_query_row_report (d : Database) (q : String) (rows : List String)
    (h : d.run q = Except.ok (RunResult.rows rows)) :
    (rows.length = 0 →
      sql_db_query (some d) q = "Query executed successfully. No rows returned.")
    ∧ (0 < rows.length → rows.length ≤ 100 →
      sql_db_query (some d) q =
        "Query returned " ++ toString rows.length ++ " rows:\n" ++ pyListStr rows)
    ∧ (100 < rows.length →
      sql_db_query (some d) q =
        "Query returned " ++ toString rows.length ++ " rows. First 100 rows:\n"
          ++ pyListStr (rows.take 100)
        ∧ (rows.take 100).length = 100) := by
  have e1 : sql_db_query (some d) q =
      match d.run q with
      | Except.error e => "Error executing SQL query: " ++ e
      | Except.ok (RunResult.text s) => s
      | Except.ok (RunResult.rows result) =>
        if result.length = 0 then "Query executed successfully. No rows returned."
        else
          if result.length > 100 then
            "Query returned " ++ toString result.length ++ " rows. First 100 rows:\n"
              ++ pyListStr (result.take 100)
          else "Query returned " ++ toString result.length ++ " rows:\n" ++ pyListStr result :=
    rfl
  have e2 : sql_db_query (some d) q =
      (if rows.length = 0 then "Query executed successfully. No rows returned."
       else
         if rows.length > 100 then
           "Query returned " ++ toString rows.length ++ " rows. First 100 rows:\n"
             ++ pyListStr (rows.take 100)
         else "Query returned " ++ toString rows.length ++ " rows:\n" ++ pyListStr rows) := by
    rw [e1, h]
  refine ⟨?_, ?_, ?_⟩
  · intro h0
    rw [e2, if_pos h0]
  · intro h1 h2
    rw [e2, if_neg (by omega), if_neg (by omega)]
  · intro h3
    refine ⟨?_, ?_⟩
    · rw [e2, if_neg (by omega), if_pos (by omega)]
    · rw [List.length_take]
      omega

/-- Witness for C5 at a backend returning 250 rows: the report names 250
rows and the sample is exactly the first 100. -/
theorem C5_run_query_row_report_witness :
    sql_db_query (some db250) "SELECT x FROM t" =
      "Query returned " ++ toString (List.replicate 250 "r").length
        ++ " rows. First 100 rows:\n" ++ pyListStr ((List.replicate 250 "r").take 100)
    ∧ ((List.replicate 250 "r").take 100).length = 100 :=
  (C5_run_query_row_report db250 "SELECT x FROM t" (List.replicate 250 "r") rfl).2.2
    (by rw [List.length_replicate]; omega)

/-! ### C3 — the query checker on a destructive and on a valid statement -/

/-- C3: the checker answers "DROP TABLE users;" with the
destructive-keyword warning for DROP while submitting nothing to the
backend (the result is the same for every backend and the call log is
empty), and answers "SELECT 1;" — when the backend accepts the EXPLAIN
dry run — with the validity confirmation, having submitted exactly the
EXPLAIN statement. -/
theorem C3_check_query (d : Database) (r : RunResult)
    (h : d.run "EXPLAIN SELECT 1;" = Except.ok r) :
    (∀ d2 : Database,
      sql_db_query_checker (some d2) "DROP TABLE users;" =
        ("WARNING: Query contains potentially dangerous keyword \x27DROP\x27. Please review carefully.",
          []))
    ∧ sql_db_query_checker (some d) "SELECT 1;" =
        ("Query syntax appears valid and safe for execution", ["EXPLAIN SELECT 1;"]) := by
  constructor
  · intro d2
    rfl
  · have e1 : sql_db_query_checker (some d) "SELECT 1;" =
        match d.run "EXPLAIN SELECT 1;" with
        | Except.ok _ =>
          ("Query syntax appears valid and safe for execution", ["EXPLAIN SELECT 1;"])
        | Except.error syntax_error =>
          ("Query syntax error: " ++ syntax_error, ["EXPLAIN SELECT 1;"]) := rfl
    rw [e1, h]

/-- Witness for C3 on a backend that accepts the EXPLAIN dry run. -/
theorem C3_check_query_witness :
    sql_db_query_checker (some okDB) "DROP TABLE users;" =
      ("WARNING: Query contains potentially dangerous keyword \x27DROP\x27. Please review carefully.",
        [])
    ∧ sql_db_query_checker (some okDB) "SELECT 1;" =
      ("Query syntax appears valid and safe for execution", ["EXPLAIN SELECT 1;"]) := by
  have h := C3_check_query okDB (RunResult.text "EXPLAIN output") rfl
  exact ⟨h.1 okDB, h.2⟩

/-! ### C7 — the stream ends with exactly one terminal event -/

/-- The loop body never emits a terminal frame: only token, tool_start and
tool_end frames come from upstream events. -/
theorem renderEvent_not_terminal {e : AgentEvent} {f : SSEFrame}
    (h : renderEvent e = some f) : isTerminal f = false := by
  cases e with
  | chat_model_stream c =>
    have e1 : renderEvent (AgentEvent.chat_model_stream c)
        = if c = "" then none else some (SSEFrame.token c) := rfl
    rw [e1] at h
    by_cases hc : c = ""
    · rw [if_pos hc] at h
      cases h
    · rw [if_neg hc] at h
      injection h with h1
      subst h1
      rfl
  | tool_start n i =>
    injection h with h1
    subst h1
    rfl
  | tool_end n o =>
    injection h with h1
    subst h1
    rfl
  | other k =>
    exact absurd h (by simp [renderEvent])

/-- No frame produced for the upstream events is terminal. -/
theorem filterMap_renderEvent_not_terminal (events : List AgentEvent) :
    ∀ f ∈ events.filterMap renderEvent, isTerminal f = false := by
  intro f hf
  rcases List.mem_filterMap.mp hf with ⟨e, -, he⟩
  exact renderEvent_not_terminal he

/-- C7: for every upstream run — any delivered event sequence, completing
normally or raising — the emitted frame sequence is some non-terminal
frames followed by exactly one terminal frame (`stream_end` on
completion, `error` on an exception); nothing follows it, and the number
of terminal frames in the whole sequence is exactly one. -/
theorem C7_exactly_one_terminal_event (events : List AgentEvent) (exc : Option String) :
    ∃ front last,
      event_stream events exc = front ++ [last]
      ∧ isTerminal last = true
      ∧ (∀ f ∈ front, isTerminal f = false)
      ∧ ((event_stream events exc).filter (fun f => isTerminal f)).length = 1 := by
  have hfront := filterMap_renderEvent_not_terminal events
  have hnil : (events.filterMap renderEvent).filter (fun f => isTerminal f) = [] := by
    rw [List.filter_eq_nil_iff]
    intro a ha
    simp [hfront a ha]
  cases exc with
  | none =>
    refine ⟨events.filterMap renderEvent, SSEFrame.streamEnd, rfl, rfl, hfront, ?_⟩
    show ((events.filterMap renderEvent ++ [SSEFrame.streamEnd]).filter
      (fun f => isTerminal f)).length = 1
    rw [List.filter_append, hnil]
    rfl
  | some e =>
    refine ⟨events.filterMap renderEvent,
      SSEFrame.error ("An error occurred during agent execution: " ++ e), rfl, rfl, hfront, ?_⟩
    show ((events.filterMap renderEvent
        ++ [SSEFrame.error ("An error occurred during agent execution: " ++ e)]).filter
      (fun f => isTerminal f)).length = 1
    rw [List.filter_append, hnil]
    rfl

/-! ### C8 — token events reconstruct the turn text -/

/-- Helper: token contents distribute over frame-list append. -/
theorem tokenContents_append (a b : List SSEFrame) :
    tokenContents (a ++ b) = tokenContents a ++ tokenContents b := by
  induction a with
  | nil => rfl
  | cons f rest ih => cases f <;> simp [tokenContents, ih]

/-- Helper: prepending the empty string is the identity. -/
theorem empty_string_append (s : String) : "" ++ s = s := rfl

/-- Helper: dropping empty strings does not change a concatenation. -/
theorem concatStrings_filter_ne_empty (l : List String) :
    concatStrings (l.filter (fun c => !(c == ""))) = concatStrings l := by
  induction l with
  | nil => rfl
  | cons s rest ih =>
    rw [List.filter_cons]
    by_cases hs : s = ""
    · subst hs
      rw [if_neg (by decide), ih]
      simp [concatStrings, empty_string_append]
    · rw [if_pos (by simp [hs])]
      simp [concatStrings, ih]

/-- Helper: the token contents of the frames rendered for an event list
are exactly its nonempty chunk contents, in order. -/
theorem tokenContents_filterMap_renderEvent (events : List AgentEvent) :
    tokenContents (events.filterMap renderEvent)
      = (chunkContents events).filter (fun c => !(c == "")) := by
  induction events with
  | nil => rfl
  | cons e rest ih =>
    cases e with
    | chat_model_stream c =>
      by_cases hc : c = ""
      · subst hc
        simpa [List.filterMap_cons, renderEvent, chunkContents, tokenContents,
          List.filter_cons] using ih
      · simp [List.filterMap_cons, renderEvent, hc, chunkContents, tokenContents,
          List.filter_cons, ih]
    | tool_start n i =>
      simpa [List.filterMap_cons, renderEvent, chunkContents, tokenContents] using ih
    | tool_end n o =>
      simpa [List.filterMap_cons, renderEvent, chunkContents, tokenContents] using ih
    | other k =>
      simpa [List.filterMap_cons, renderEvent, chunkContents, tokenContents] using ih

/-- C8: for every upstream run, the `content` fields of the emitted
`token` frames are exactly the nonempty model-chunk contents in delivery
order (no loss, no duplication, no reordering), and their concatenation
equals the concatenation of all chunk contents — the turn's full
generated text — because the frames skipped by `if content:` are exactly
the empty chunks. -/
theorem C8_token_concatenation (events : List AgentEvent) (exc : Option String) :
    tokenContents (event_stream events exc)
      = (chunkContents events).filter (fun c => !(c == ""))
    ∧ concatStrings (tokenContents (event_stream events exc))
      = concatStrings (chunkContents events) := by
  have hterm : tokenContents (event_stream events exc)
      = tokenContents (events.filterMap renderEvent) := by
    cases exc with
    | none =>
      show tokenContents (events.filterMap renderEvent ++ [SSEFrame.streamEnd]) = _
      rw [tokenContents_append]
      simp [tokenContents]
    | some e =>
      show tokenContents (events.filterMap renderEvent
        ++ [SSEFrame.error ("An error occurred during agent execution: " ++ e)]) = _
      rw [tokenContents_append]
      simp [tokenContents]
  have h1 : tokenContents (event_stream events exc)
      = (chunkContents events).filter (fun c => !(c == "")) := by
    rw [hterm, tokenContents_filterMap_renderEvent]
  refine ⟨h1, ?_⟩
  rw [h1, concatStrings_filter_ne_empty]

/-! ### C1 — the served agent has no cross-request memory (code bug)

The endpoint serves `create_react_agent(model, tools, prompt)` without a
checkpointer (`create_agent`, line 119), although the function's own
docstring promises a checkpointer for short-term conversational memory
and `build_graph` compiles a `MemorySaver`-backed graph that no caller
uses.  Consequently the second request on a thread is invoked with only
its own message, not the first request's. -/

/-- C1 (refuting theorem): run the endpoint wiring twice on the same
`thread_id`.  The history the second invocation presents to the model is
exactly the second request's single message; the first request's message
is absent (the claim asserts it would be included). -/
theorem C1_second_request_sees_no_history (q1 q2 tid : String)
    (gen1 gen2 : List ChatMessage) (hne : q1 ≠ q2) :
    (runAgent chat_stream_agent
        (runAgent chat_stream_agent [] tid (chat_request_input q1) gen1 true).2
        tid (chat_request_input q2) gen2 true).1 = [ChatMessage.human q2]
    ∧ ChatMessage.human q1 ∉
      (runAgent chat_stream_agent
        (runAgent chat_stream_agent [] tid (chat_request_input q1) gen1 true).2
        tid (chat_request_input q2) gen2 true).1 := by
  refine ⟨rfl, ?_⟩
  intro hmem
  have h2 : ChatMessage.human q1 ∈ [ChatMessage.human q2] := hmem
  simp at h2
  exact hne h2

/-- Witness for C1 at the failing input of the spec's memory test. -/
theorem C1_second_request_sees_no_history_witness :
    (runAgent chat_stream_agent
        (runAgent chat_stream_agent [] "t1" (chat_request_input "My name is Alice") [] true).2
        "t1" (chat_request_input "what did I just ask?") [] true).1
      = [ChatMessage.human "what did I just ask?"]
    ∧ ChatMessage.human "My name is Alice" ∉
      (runAgent chat_stream_agent
        (runAgent chat_stream_agent [] "t1" (chat_request_input "My name is Alice") [] true).2
        "t1" (chat_request_input "what did I just ask?") [] true).1 :=
  C1_second_request_sees_no_history "My name is Alice" "what did I just ask?" "t1" [] []
    (by decide)

/-! ### C2 — a completed run commits nothing to session history (code bug) -/

/-- C2 (refuting theorem): with the served agent, a completed run leaves
the checkpointer store exactly as it was — so the stored history does
not equal (history before) ++ (messages of the run), which is nonempty
because it contains at least the user message.  (An aborted run also
leaves the store unchanged, which is the only half of the claim the code
satisfies.) -/
theorem C2_completed_run_commits_nothing (store : ThreadStore) (tid q : String)
    (gen : List ChatMessage) :
    (runAgent chat_stream_agent store tid (chat_request_input q) gen true).2 = store
    ∧ lookupThread (runAgent chat_stream_agent store tid (chat_request_input q) gen true).2 tid
      ≠ lookupThread store tid ++ (chat_request_input q ++ gen)
    ∧ (runAgent chat_stream_agent store tid (chat_request_input q) gen false).2 = store := by
  refine ⟨rfl, ?_, rfl⟩
  intro h
  have e : (runAgent chat_stream_agent store tid (chat_request_input q) gen true).2 = store :=
    rfl
  rw [e] at h
  have hlen := congrArg List.length h
  rw [List.length_append, List.length_append] at hlen
  have h1 : (chat_request_input q).length = 1 := rfl
  omega

/-! ### C6 — tool invocation never raises; backend failures become text -/

/-- C6: on a backend whose every operation raises with message e, each
tool still returns an ordinary string in which the failure is embedded:
the try/except of every tool converts the exception to its error text
(and the checker, when it reaches the EXPLAIN dry run, reports a syntax
error string).  Together with the totality of all the tool embeddings
(they are functions into `String`), this is the fail-soft contract: no
input and no backend failure escapes as an exception. -/
theorem C6_backend_failures_become_text (e q : String) (tn : Option String) (tk : Bool) :
    sql_db_query (some (failDB e)) q = "Error executing SQL query: " ++ e
    ∧ sql_db_schema (some (failDB e)) tn = "Error getting schema: " ++ e
    ∧ sql_db_list_tables (some (failDB e)) = "Error listing tables: " ++ e
    ∧ sql_db_info (some (failDB e)) = "Error getting database info: " ++ e
    ∧ health_check (some (failDB e)) tk
        = "\x7b\n  \"server_status\": \"running\",\n  \"database_initialized\": true,\n  \"toolkit_initialized\": "
          ++ (if tk then "true" else "false")
          ++ ",\n  \"database_connection\": " ++ jsonStr ("error: " ++ e) ++ "\n\x7d"
    ∧ ((dangerous_keywords.find? fun kw => pyContains (pyUpper (pyStrip q)) kw) = none →
        pyStartsWith (pyUpper (pyStrip q)) "SELECT" = true →
        (sql_db_query_checker (some (failDB e)) q).1 = "Query syntax error: " ++ e) := by
  refine ⟨rfl, ?_, rfl, rfl, rfl, ?_⟩
  · cases tn with
    | none => rfl
    | some t =>
      by_cases ht : t ≠ "" && pyStrip t ≠ ""
      · simp [sql_db_schema, ht, failDB]
      · simp [sql_db_schema, ht, failDB]
  · intro hfind hsel
    have hne : ¬ pyStrip q = "" := by
      intro h0
      rw [h0] at hsel
      exact absurd hsel (by decide)
    have e1 : sql_db_query_checker (some (failDB e)) q =
        match dangerous_keywords.find?
            (fun keyword => pyContains (pyUpper (pyStrip q)) keyword) with
        | some keyword =>
          ("WARNING: Query contains potentially dangerous keyword \x27" ++ keyword
            ++ "\x27. Please review carefully.", [])
        | none =>
          if pyStrip q = "" then ("ERROR: Empty query provided", [])
          else
            if pyStartsWith (pyUpper (pyStrip q)) "SELECT" then
              ("Query syntax error: " ++ e,
                ["EXPLAIN "
                  ++ (if !(pyEndsWith (pyStrip q) ";") && pyStartsWith (pyUpper (pyStrip q)) "SELECT"
                      then q ++ ";" else q)])
            else
              ("Query passed basic safety checks. Please review before execution.", []) := rfl
    rw [e1, hfind]
    rw [if_neg hne, if_pos hsel]

/-- Witness for C6: the checker on a SELECT statement against the failing
backend, with the hypotheses discharged by computation. -/
theorem C6_backend_failures_become_text_witness :
    (sql_db_query_checker (some (failDB "boom")) "SELECT 1").1
      = "Query syntax error: " ++ "boom"
    ∧ sql_db_query (some (failDB "boom")) "SELECT 1"
      = "Error executing SQL query: " ++ "boom" := by
  have h := C6_backend_failures_become_text "boom" "SELECT 1" none true
  exact ⟨h.2.2.2.2.2 (by decide) (by decide), h.1⟩

/-! ### C4 — naive substring matching, first keyword in list order

The claim quantifies over queries whose UPPERCASED form contains a
keyword; the code tests the uppercased STRIPPED form.  The two tests
agree because every keyword starts and ends with a non-whitespace
character, which the following lemmas establish. -/

/-- The Boolean substring test agrees with the contiguous-sublist
relation. -/
theorem hasSubList_iff_infix (pat l : List Char) :
    hasSubList pat l = true ↔ pat <:+: l := by
  induction l with
  | nil =>
    simp [hasSubList, List.isEmpty_iff]
  | cons c rest ih =>
    simp [hasSubList, List.infix_cons_iff, ih]

/-- Upper-casing fixes the four whitespace characters. -/
theorem toUpper_of_isWhitespace {c : Char} (h : c.isWhitespace = true) :
    Char.toUpper c = c := by
  have h4 : c = ' ' ∨ c = '\t' ∨ c = '\r' ∨ c = '\n' := by
    simpa [Char.isWhitespace, or_assoc] using h
  rcases h4 with h | h | h | h <;> subst h <;> decide

/-- Dropping leading whitespace before upper-casing does not affect
occurrences of a pattern whose first character is not whitespace. -/
theorem infix_map_toUpper_dropWhile (phead : Char) (ptl : List Char)
    (hhead : phead.isWhitespace = false) :
    ∀ l : List Char,
      ((phead :: ptl) <:+: (l.dropWhile Char.isWhitespace).map Char.toUpper
        ↔ (phead :: ptl) <:+: l.map Char.toUpper) := by
  intro l
  induction l with
  | nil => simp
  | cons c rest ih =>
    by_cases hc : c.isWhitespace = true
    · rw [List.dropWhile_cons_of_pos hc, ih]
      constructor
      · intro h
        exact List.infix_cons h
      · intro h
        rcases List.infix_cons_iff.mp h with hpre | hinf
        · rcases List.cons_prefix_cons.mp hpre with ⟨heq, -⟩
          have hw : phead.isWhitespace = true := by
            rw [heq, toUpper_of_isWhitespace hc]
            exact hc
          rw [hhead] at hw
          cases hw
        · exact hinf
    · rw [List.dropWhile_cons_of_neg hc]

/-- Stripping both ends before upper-casing does not affect occurrences of
a pattern with non-whitespace edges. -/
theorem infix_map_toUpper_strip (pat l : List Char) (hedge : noWsEdges pat = true) :
    (pat <:+: (stripChars l).map Char.toUpper ↔ pat <:+: l.map Char.toUpper) := by
  have hne : pat ≠ [] := by
    intro h0
    rw [h0] at hedge
    exact absurd hedge (by decide)
  obtain ⟨phead, ptl, hp⟩ := List.exists_cons_of_ne_nil hne
  have hh : phead.isWhitespace = false := by
    have h1 : pat.head? = some phead := by rw [hp]; rfl
    have h2 := hedge
    unfold noWsEdges at h2
    rw [h1, Bool.and_eq_true] at h2
    rcases h2 with ⟨h3, -⟩
    simpa using h3
  have hrevne : pat.reverse ≠ [] := by
    rw [hp]
    simp
  obtain ⟨plast, ptl2, hq⟩ := List.exists_cons_of_ne_nil hrevne
  have hl : plast.isWhitespace = false := by
    have h1 : pat.getLast? = some plast := by
      rw [← List.head?_reverse, hq]
      rfl
    have h2 := hedge
    unfold noWsEdges at h2
    rw [h1, Bool.and_eq_true] at h2
    rcases h2 with ⟨-, h3⟩
    simpa using h3
  have hflip : ∀ (u X : List Char), (u <:+: X.reverse) ↔ (u.reverse <:+: X) := by
    intro u X
    conv_lhs => rw [← List.reverse_reverse u]
    exact List.reverse_infix
  calc pat <:+: (stripChars l).map Char.toUpper
      ↔ pat <:+:
          (((l.dropWhile Char.isWhitespace).reverse.dropWhile Char.isWhitespace).map
            Char.toUpper).reverse := by
        rw [stripChars, List.map_reverse]
    _ ↔ pat.reverse <:+:
          ((l.dropWhile Char.isWhitespace).reverse.dropWhile Char.isWhitespace).map
            Char.toUpper := hflip _ _
    _ ↔ pat.reverse <:+: (l.dropWhile Char.isWhitespace).reverse.map Char.toUpper := by
        rw [hq]
        exact infix_map_toUpper_dropWhile plast ptl2 hl _
    _ ↔ pat.reverse <:+: ((l.dropWhile Char.isWhitespace).map Char.toUpper).reverse := by
        rw [List.map_reverse]
    _ ↔ pat <:+: (l.dropWhile Char.isWhitespace).map Char.toUpper := List.reverse_infix
    _ ↔ pat <:+: l.map Char.toUpper := by
        rw [hp]
        exact infix_map_toUpper_dropWhile phead ptl hh _

/-- The Python containment test is insensitive to stripping the searched
string when the pattern has non-whitespace edges. -/
theorem pyContains_upper_strip (q kw : String) (hedge : noWsEdges kw.data = true) :
    pyContains (pyUpper (pyStrip q)) kw = pyContains (pyUpper q) kw := by
  have h1 := hasSubList_iff_infix kw.data ((stripChars q.data).map Char.toUpper)
  have h2 := hasSubList_iff_infix kw.data (q.data.map Char.toUpper)
  have h3 := infix_map_toUpper_strip kw.data q.data hedge
  show hasSubList kw.data ((stripChars q.data).map Char.toUpper)
    = hasSubList kw.data (q.data.map Char.toUpper)
  rw [Bool.eq_iff_iff, h1, h2]
  exact h3

/-- Helper: pointwise-equal predicates find the same first element. -/
theorem find?_congr_of_mem {α : Type} {p p2 : α → Bool} (ks : List α)
    (h : ∀ k ∈ ks, p k = p2 k) : ks.find? p = ks.find? p2 := by
  induction ks with
  | nil => rfl
  | cons a rest ih =>
    have ha := h a (by simp)
    by_cases hpa : p2 a = true
    · rw [List.find?_cons_of_pos rest (by rw [ha]; exact hpa),
        List.find?_cons_of_pos rest hpa]
    · rw [List.find?_cons_of_neg rest (by rw [ha]; exact hpa),
        List.find?_cons_of_neg rest hpa]
      exact ih fun k hk => h k (by simp [hk])

/-- Helper: when some element satisfies the predicate, `find?` returns the
first such element, together with the decomposition witnessing it. -/
theorem find?_first_spec {α : Type} (ks : List α) (p : α → Bool)
    (h : ∃ k ∈ ks, p k = true) :
    ∃ k l1 l2, ks = l1 ++ k :: l2 ∧ p k = true ∧ (∀ a ∈ l1, p a = false)
      ∧ ks.find? p = some k := by
  induction ks with
  | nil => simp at h
  | cons a rest ih =>
    by_cases hpa : p a = true
    · exact ⟨a, [], rest, rfl, hpa, by simp, List.find?_cons_of_pos rest hpa⟩
    · have h2 : ∃ k ∈ rest, p k = true := by
        rcases h with ⟨k, hk, hpk⟩
        rcases List.mem_cons.mp hk with rfl | hk2
        · exact absurd hpk hpa
        · exact ⟨k, hk2, hpk⟩
      rcases ih h2 with ⟨k, l1, l2, heq, hpk, hall, hf⟩
      refine ⟨k, a :: l1, l2, by rw [heq]; rfl, hpk, ?_, ?_⟩
      · intro x hx
        rcases List.mem_cons.mp hx with rfl | hx2
        · exact Bool.eq_false_iff.mpr hpa
        · exact hall x hx2
      · rw [List.find?_cons_of_neg rest hpa]
        exact hf

/-- Helper: when the destructive-keyword search of the checker finds a
keyword, the checker returns the warning for it with an empty backend
call log, whatever the backend is. -/
theorem checker_eq_of_find (d : Database) (query kw : String)
    (hfind : dangerous_keywords.find?
        (fun keyword => pyContains (pyUpper (pyStrip query)) keyword) = some kw) :
    sql_db_query_checker (some d) query =
      ("WARNING: Query contains potentially dangerous keyword \x27" ++ kw
        ++ "\x27. Please review carefully.", []) := by
  have e1 : sql_db_query_checker (some d) query =
      match dangerous_keywords.find?
          (fun keyword => pyContains (pyUpper (pyStrip query)) keyword) with
      | some keyword =>
        ("WARNING: Query contains potentially dangerous keyword \x27" ++ keyword
          ++ "\x27. Please review carefully.", [])
      | none =>
        if pyStrip query = "" then ("ERROR: Empty query provided", [])
        else
          if pyStartsWith (pyUpper (pyStrip query)) "SELECT" then
            match d.run ("EXPLAIN "
                ++ (if !(pyEndsWith (pyStrip query) ";")
                      && pyStartsWith (pyUpper (pyStrip query)) "SELECT"
                    then query ++ ";" else query)) with
            | Except.ok _ =>
              ("Query syntax appears valid and safe for execution",
                ["EXPLAIN "
                  ++ (if !(pyEndsWith (pyStrip query) ";")
                        && pyStartsWith (pyUpper (pyStrip query)) "SELECT"
                      then query ++ ";" else query)])
            | Except.error syntax_error =>
              ("Query syntax error: " ++ syntax_error,
                ["EXPLAIN "
                  ++ (if !(pyEndsWith (pyStrip query) ";")
                        && pyStartsWith (pyUpper (pyStrip query)) "SELECT"
                      then query ++ ";" else query)])
          else
            ("Query passed basic safety checks. Please review before execution.", []) := rfl
  rw [e1, hfind]

/-- C4: for every query whose uppercased form contains one of the six
destructive keywords as a substring — identifiers such as dropped_at
included — the checker warns about the first matching keyword in list
order; for every backend the result is that warning returned as an
ordinary value with an empty backend-call log, so no EXPLAIN dry run and
no execution happens and nothing is raised. -/
theorem C4_substring_match_first_keyword (query : String)
    (h : ∃ kw ∈ dangerous_keywords, pyContains (pyUpper query) kw = true) :
    ∃ kw l1 l2,
      dangerous_keywords = l1 ++ kw :: l2
      ∧ pyContains (pyUpper query) kw = true
      ∧ (∀ k ∈ l1, pyContains (pyUpper query) k = false)
      ∧ dangerous_keywords.find? (fun k => pyContains (pyUpper query) k) = some kw
      ∧ ∀ d : Database,
          sql_db_query_checker (some d) query =
            ("WARNING: Query contains potentially dangerous keyword \x27" ++ kw
              ++ "\x27. Please review carefully.", []) := by
  have hcong : ∀ k ∈ dangerous_keywords,
      pyContains (pyUpper query) k = pyContains (pyUpper (pyStrip query)) k := by
    intro k hk
    simp only [dangerous_keywords, List.mem_cons, List.not_mem_nil, or_false] at hk
    rcases hk with rfl | rfl | rfl | rfl | rfl | rfl <;>
      exact (pyContains_upper_strip query _ (by decide)).symm
  obtain ⟨kw0, hkmem, hkc⟩ := h
  have hex : ∃ k ∈ dangerous_keywords, pyContains (pyUpper (pyStrip query)) k = true :=
    ⟨kw0, hkmem, by rw [← hcong kw0 hkmem]; exact hkc⟩
  obtain ⟨kw, l1, l2, heq, hpk, hall, hfind⟩ :=
    find?_first_spec dangerous_keywords (fun k => pyContains (pyUpper (pyStrip query)) k) hex
  have hkwmem : kw ∈ dangerous_keywords := by
    rw [heq]
    exact List.mem_append_right _ (List.mem_cons_self _ _)
  refine ⟨kw, l1, l2, heq, ?_, ?_, ?_, ?_⟩
  · rw [hcong kw hkwmem]
    exact hpk
  · intro k hk1
    have hkmem2 : k ∈ dangerous_keywords := by
      rw [heq]
      exact List.mem_append_left _ hk1
    rw [hcong k hkmem2]
    exact hall k hk1
  · rw [find?_congr_of_mem dangerous_keywords hcong]
    exact hfind
  · intro d
    exact checker_eq_of_find d query kw hfind

/-- Witness for C4 at a query that merely mentions a column named
dropped_at: the checker still warns about DROP, calling no backend. -/
theorem C4_substring_match_first_keyword_witness :
    sql_db_query_checker (some okDB) "SELECT dropped_at FROM events" =
      ("WARNING: Query contains potentially dangerous keyword \x27DROP\x27. Please review carefully.",
        []) := by
  obtain ⟨kw, l1, l2, heq, hc, hall, hfind, hres⟩ :=
    C4_substring_match_first_keyword "SELECT dropped_at FROM events"
      ⟨"DROP", by decide, by decide⟩
  have hkw : kw = "DROP" := by
    have hd : dangerous_keywords.find?
        (fun k => pyContains (pyUpper "SELECT dropped_at FROM events") k) = some "DROP" := by
      decide
    rw [hfind] at hd
    exact Option.some.inj hd
  rw [hres okDB, hkw]
  rfl
